import Mathlib

/-!
Verification of the account/auth core and dashboard guards of
`dashboard.py` (Data-Visualization-and-Analysis-Dashboard).

Shallow embedding used throughout:
* the MySQL `users` table is a `List UserRow` in table order;
* a database connection attempt or SQL statement has an explicit outcome
  (`DBOutcome`): `ok`, connection failure (`create_connection` returns
  `None`), or a `pymysql.MySQLError` raised by the statement;
* bcrypt is idealized: `bcrypt.hashpw(p, gensalt())` becomes the structured
  value `BHash.mk p salt` where `salt` stands for the random salt drawn by
  `gensalt()`, and `bcrypt.checkpw(p, h)` succeeds iff `h` was produced
  from `p`.  Distinct salts give distinct hash values, and a hash value is
  a `BHash`, not the plaintext `String`, so storing plaintext is not even
  typeable in the model;
* Python regexes are embedded with a Brzozowski-derivative matcher;
* the Streamlit render pass is a pure function from session state to
  (new session state, list of emitted UI effects).
-/

/-! ### Idealized bcrypt (dashboard.py lines 40-45) -/

/-- A bcrypt hash value: the hashed password together with the salt drawn
by `gensalt()` at hashing time. -/
structure BHash where
  pw : String
  salt : Nat
deriving DecidableEq

/-- `hash_password` (line 40-41): `bcrypt.hashpw(password.encode(), bcrypt.gensalt()).decode()`.
The fresh random salt of `gensalt()` is an explicit parameter. -/
def hash_password (password : String) (salt : Nat) : BHash :=
  ⟨password, salt⟩

/-- `verify_password` (line 44-45): `bcrypt.checkpw(password.encode(), stored_hash.encode())`:
succeeds iff the stored hash was computed from this password. -/
def verify_password (stored_hash : BHash) (password : String) : Bool :=
  stored_hash.pw == password

/-! ### Regex matching (dashboard.py lines 48-55)

A Brzozowski-derivative matcher for the two anchored regexes.  `re.match`
anchors at the start and both patterns end in `$`, so validity is modelled
as a full-string match. -/

/-- Regular expressions over character classes. -/
inductive RE where
  | eps : RE
  | cls : (Char → Bool) → RE
  | cat : RE → RE → RE
  | alt : RE → RE → RE
  | star : RE → RE

/-- Does the regex accept the empty string? -/
def RE.nullable : RE → Bool
  | .eps => true
  | .cls _ => false
  | .cat a b => a.nullable && b.nullable
  | .alt a b => a.nullable || b.nullable
  | .star _ => true

/-- Brzozowski derivative with respect to one character. -/
def RE.deriv : RE → Char → RE
  | .eps, _ => .cls (fun _ => false)
  | .cls p, c => if p c then .eps else .cls (fun _ => false)
  | .cat a b, c =>
      if a.nullable then .alt (.cat (a.deriv c) b) (b.deriv c)
      else .cat (a.deriv c) b
  | .alt a b, c => .alt (a.deriv c) (b.deriv c)
  | .star a, c => .cat (a.deriv c) (.star a)

/-- Full-string matching by iterated derivatives. -/
def RE.matchList : RE → List Char → Bool
  | r, [] => r.nullable
  | r, c :: cs => (r.deriv c).matchList cs

/-- `r+` -/
def REplus (r : RE) : RE := .cat r (.star r)

/-- `r?` -/
def REopt (r : RE) : RE := .alt .eps r

/-- A single literal character. -/
def REchar (c : Char) : RE := .cls (fun x => x == c)

/-- `r{n}` -/
def RErep : Nat → RE → RE
  | 0, _ => .eps
  | n + 1, r => .cat r (RErep n r)

/-- Character class `[a-zA-Z0-9._%+-]` of the email regex's local part. -/
def emailLocalChar (c : Char) : Bool :=
  c.isAlpha || c.isDigit || c == '.' || c == '_' || c == '%' || c == '+' || c == '-'

/-- Character class `[a-zA-Z0-9.-]` of the email regex's domain part. -/
def emailDomainChar (c : Char) : Bool :=
  c.isAlpha || c.isDigit || c == '.' || c == '-'

/-- The email regex of line 49:
`^[a-zA-Z0-9._%+-]+@[a-zA-Z0-9.-]+\.[a-zA-Z]{2,}$`. -/
def email_regex : RE :=
  .cat (REplus (.cls emailLocalChar))
    (.cat (REchar '@')
      (.cat (REplus (.cls emailDomainChar))
        (.cat (REchar '.')
          (.cat (.cls Char.isAlpha) (REplus (.cls Char.isAlpha))))))

/-- The phone regex of line 54: `^\+?[1-9]\d{9}$` (`\d` taken as an ASCII
digit). -/
def phone_regex : RE :=
  .cat (REopt (REchar '+'))
    (.cat (.cls (fun c => '1' ≤ c && c ≤ '9'))
      (RErep 9 (.cls Char.isDigit)))

/-- `is_valid_email` (lines 48-50). -/
def is_valid_email (email : String) : Bool :=
  email_regex.matchList email.data

/-- `is_valid_phone` (lines 53-55). -/
def is_valid_phone (phone : String) : Bool :=
  phone_regex.matchList phone.data

/-! ### The users table -/

/-- One row of the `users` table (section 6 of the spec):
`users(username, first_name, last_name, email, phone_number, password)`
where `password` holds the bcrypt hash. -/
structure UserRow where
  username : String
  first_name : String
  last_name : String
  email : String
  phone_number : String
  password : BHash
deriving DecidableEq

/-- Outcome of one database interaction: connection established and the
statement ran (`ok`), `create_connection` returned `None` (`connFail`), or
the statement raised `pymysql.MySQLError` (`sqlError`). -/
inductive DBOutcome where
  | ok
  | connFail
  | sqlError
deriving DecidableEq

/-! ### Account operations -/

/-- `check_existing_user` (lines 58-72): on connection failure it returns
`True` ("Prevent further operations if connection fails"), on a SQL error
it shows the error and returns `True`, otherwise it reports whether some
row matches `username = %s OR email = %s OR phone_number = %s`. -/
def check_existing_user (out : DBOutcome) (db : List UserRow)
    (username email phone : String) : Bool :=
  match out with
  | .connFail => true
  | .sqlError => true
  | .ok => db.any (fun r =>
      r.username == username || r.email == email || r.phone_number == phone)

/-- Result reported by `register_user` via `st.error` / `st.success`. -/
inductive RegResult where
  | success
  | invalidEmail
  | invalidPhone
  | alreadyInUse
  | connError
  | dbError
deriving DecidableEq

/-- A database access performed by `register_user`: entering
`check_existing_user` (which opens a connection and runs the existence
`SELECT`), or reaching the `INSERT` statement. -/
inductive DBEvent where
  | existenceQuery
  | insertStmt
deriving DecidableEq

/-- Output of `register_user`: the resulting table, the reported result,
and the trace of database accesses in program order. -/
structure RegOutput where
  db : List UserRow
  result : RegResult
  trace : List DBEvent
deriving DecidableEq

/-- `register_user` (lines 75-103), in source order: email format check,
phone format check, `check_existing_user`, then connect and `INSERT`.
`checkOut` is the outcome of the existence query's database interaction,
`insOut` the outcome of the insert's, and `salt` the salt drawn by
`hash_password` at line 95. -/
def register_user (checkOut insOut : DBOutcome) (db : List UserRow)
    (username fn ln email phone pw : String) (salt : Nat) : RegOutput :=
  if is_valid_email email = false then ⟨db, .invalidEmail, []⟩
  else if is_valid_phone phone = false then ⟨db, .invalidPhone, []⟩
  else if check_existing_user checkOut db username email phone then
    ⟨db, .alreadyInUse, [.existenceQuery]⟩
  else
    match insOut with
    | .connFail => ⟨db, .connError, [.existenceQuery]⟩
    | .sqlError => ⟨db, .dbError, [.existenceQuery, .insertStmt]⟩
    | .ok => ⟨db ++ [⟨username, fn, ln, email, phone, hash_password pw salt⟩],
             .success, [.existenceQuery, .insertStmt]⟩

/-- `authenticate_user` (lines 106-122): `False` on connection failure or
SQL error; otherwise `fetchone` the first row with this username and
verify the password against its stored hash. -/
def authenticate_user (out : DBOutcome) (db : List UserRow)
    (username password : String) : Bool :=
  match out with
  | .connFail => false
  | .sqlError => false
  | .ok =>
    match db.find? (fun r => r.username == username) with
    | some user => verify_password user.password password
    | none => false

/-- Python truthiness of the `password` argument of `update_user` (line
152, `if password:`): `None` and the empty string are falsy. -/
def pyTruthy : Option String → Bool
  | none => false
  | some s => !(s == "")

/-- `update_user` (lines 145-169): on a usable connection, `UPDATE` every
row matching the username; the `SET` list includes `password` only when
the `password` argument is truthy, in which case the stored value is a
fresh hash of it (line 153). On failure the table is unchanged. -/
def update_user (out : DBOutcome) (db : List UserRow)
    (username fn ln email phone : String) (password : Option String)
    (salt : Nat) : List UserRow :=
  match out with
  | .connFail => db
  | .sqlError => db
  | .ok =>
    if pyTruthy password then
      db.map (fun r =>
        if r.username == username then
          { r with first_name := fn, last_name := ln, email := email,
                   phone_number := phone,
                   password := hash_password (password.getD "") salt }
        else r)
    else
      db.map (fun r =>
        if r.username == username then
          { r with first_name := fn, last_name := ln, email := email,
                   phone_number := phone }
        else r)

/-- `delete_user` (lines 172-186): `DELETE FROM users WHERE username = %s`
removes every row with this username; on failure the table is unchanged. -/
def delete_user (out : DBOutcome) (db : List UserRow)
    (username : String) : List UserRow :=
  match out with
  | .connFail => db
  | .sqlError => db
  | .ok => db.filter (fun r => !(r.username == username))

/-! ### Page router and render pass (lines 215-569) -/

/-- The six pages of `st.session_state.page`. -/
inductive Page where
  | register
  | login
  | admin_login
  | main
  | edit_profile
  | admin_panel
deriving DecidableEq

/-- The session flags consulted by the render pass. -/
structure SessionState where
  page : Page
  authenticated : Bool
  admin_authenticated : Bool
deriving DecidableEq

/-- Visible effects of one render pass, at the granularity the guard
claims need: the two guard warnings, and one event per page body marking
that the body's widgets were rendered. -/
inductive Effect where
  | warnLoginRequired
  | warnAdminLoginRequired
  | renderRegisterForm
  | renderLoginForm
  | renderAdminLoginForm
  | renderMainDashboard
  | renderEditProfileForm
  | renderAdminPanel
deriving DecidableEq

/-- One render pass of the page routing block (lines 258-563).  The guards
at lines 336-338, 476-478 and 515-517 show a warning and set the page back,
but contain no early return or `st.stop()`, so the rest of that page's
body still renders in the same pass. -/
def render_page (s : SessionState) : SessionState × List Effect :=
  match s.page with
  | .register => (s, [.renderRegisterForm])
  | .login => (s, [.renderLoginForm])
  | .admin_login => (s, [.renderAdminLoginForm])
  | .main =>
      if s.authenticated then (s, [.renderMainDashboard])
      else ({ s with page := .login },
            [.warnLoginRequired, .renderMainDashboard])
  | .edit_profile =>
      if s.authenticated then (s, [.renderEditProfileForm])
      else ({ s with page := .login },
            [.warnLoginRequired, .renderEditProfileForm])
  | .admin_panel =>
      if s.admin_authenticated then (s, [.renderAdminPanel])
      else ({ s with page := .admin_login },
            [.warnAdminLoginRequired, .renderAdminPanel])

/-! ### Dashboard pipeline (lines 364-469) -/

/-- Pandas dtypes distinguished by the dashboard's branches. -/
inductive PdDtype where
  | int64
  | float64
  | int32
  | objectDt
  | boolDt
  | datetime
deriving DecidableEq

/-- Does `df.select_dtypes(include=['number'])` keep a column of this
dtype? -/
def isNumericDtype : PdDtype → Bool
  | .int64 => true
  | .float64 => true
  | .int32 => true
  | _ => false

/-- The dataframe, abstracted to its column names and dtypes (the chart
branches under verification consult nothing else). -/
abbrev DFrame := List (String × PdDtype)

/-- `df.select_dtypes(include=['number']).columns.tolist()` (line 404). -/
def numeric_columns (df : DFrame) : List String :=
  (df.filter (fun c => isNumericDtype c.2)).map (fun c => c.1)

/-- `df[c].dtype`. -/
def dtypeOf (df : DFrame) (c : String) : Option PdDtype :=
  (df.find? (fun x => x.1 == c)).map (fun x => x.2)

/-- Outcome of the heatmap branch (lines 406-416). -/
inductive HeatmapResult where
  | heatmap
  | noNumericError
deriving DecidableEq

/-- The heatmap branch: render the correlation heatmap when the dataset
has at least one numeric column, otherwise `st.error("No numeric columns
found ...")` and no chart. -/
def heatmap_step (df : DFrame) : HeatmapResult :=
  if (numeric_columns df).length > 0 then .heatmap else .noNumericError

/-- Outcome of the pie-chart branch (lines 459-464). -/
inductive PieResult where
  | pie
  | typeError
deriving DecidableEq

/-- The pie-chart branch: `if df[x_col].dtype == 'object' and
df[y_col].dtype in ['int64', 'float64']` render the pie, else
`st.error(...)` and `fig = None`. -/
def pie_chart_step (df : DFrame) (x_col y_col : String) : PieResult :=
  if dtypeOf df x_col = some .objectDt
     ∧ (dtypeOf df y_col = some .int64 ∨ dtypeOf df y_col = some .float64)
  then .pie else .typeError

/-- What a file parse produces. -/
inductive ParseKind where
  | csv
  | excel
deriving DecidableEq

/-- Error effect of the read step. -/
inductive UploadEffect where
  | errorUnsupportedFileType
deriving DecidableEq

/-- The inner `read_file` (lines 369-393), the one actually called at line
398: dispatch on the lowercased filename extension
(`os.path.splitext(file.name)[1].lower()`, the `ext` argument here); any
extension other than `.csv`, `.xls`, `.xlsx` reports
"Unsupported file type" and returns `None`. -/
def read_file (ext : String) : Option ParseKind × List UploadEffect :=
  if ext == ".csv" then (some .csv, [])
  else if ext == ".xls" || ext == ".xlsx" then (some .excel, [])
  else (none, [.errorUnsupportedFileType])

/-- The module-level `read_file` (lines 197-213), shadowed at the call
site by the inner one: it dispatches on the MIME type instead. -/
def read_file_module (mime : String) : Option ParseKind × List UploadEffect :=
  if mime == "text/csv" then (some .csv, [])
  else if mime == "application/vnd.openxmlformats-officedocument.spreadsheetml.sheet" then
    (some .excel, [])
  else (none, [.errorUnsupportedFileType])

/-- The allow-list of `st.sidebar.file_uploader("Upload a CSV or Excel
file", type=["csv", "xlsx"])` at line 364, as lowercased dotted
extensions. -/
def uploader_accepts (ext : String) : Bool :=
  ext == ".csv" || ext == ".xlsx"

/-- End-to-end acceptance of the upload path: the uploader widget lets the
file through and the read step parses it. -/
def upload_path_accepts (ext : String) : Bool :=
  uploader_accepts ext && (read_file ext).1.isSome

/-! ## Theorems -/

/-- Claim C10: `update_user` called with the empty-string password behaves
identically to `update_user` called with no password (`if password:` is
false for both `None` and `""`), so the stored hash is kept and the empty
string is never hashed or stored. -/
theorem update_user_empty_password_eq_none (out : DBOutcome)
    (db : List UserRow) (u fn ln e ph : String) (salt : Nat) :
    update_user out db u fn ln e ph (some "") salt
      = update_user out db u fn ln e ph none salt := by
  cases out <;> rfl

/-- Claim C5: after a successful `delete_user u`, `authenticate_user u p`
on the resulting table returns `false` for every password `p` and every
outcome of the authentication query's own database interaction. -/
theorem delete_user_then_authenticate_false (db : List UserRow)
    (u p : String) (out2 : DBOutcome) :
    authenticate_user out2 (delete_user .ok db u) u p = false := by
  cases out2 with
  | connFail => rfl
  | sqlError => rfl
  | ok =>
    simp only [authenticate_user, delete_user]
    have h : (db.filter (fun r => !(r.username == u))).find?
        (fun r => r.username == u) = none := by
      rw [List.find?_eq_none]
      intro x hx
      have hkeep := (List.mem_filter.mp hx).2
      simpa using hkeep
    rw [h]

/-- Claim C6: when the page is `main` or `edit_profile` without
`authenticated`, or `admin_panel` without `admin_authenticated`, the
render pass shows the warning and moves the page back to `login`
(resp. `admin_login`), yet the rest of that page's body still renders in
the same pass. -/
theorem guard_redirects_body_still_renders (s : SessionState) :
    (s.page = .main → s.authenticated = false →
      (render_page s).1.page = .login
      ∧ Effect.warnLoginRequired ∈ (render_page s).2
      ∧ Effect.renderMainDashboard ∈ (render_page s).2)
    ∧ (s.page = .edit_profile → s.authenticated = false →
      (render_page s).1.page = .login
      ∧ Effect.warnLoginRequired ∈ (render_page s).2
      ∧ Effect.renderEditProfileForm ∈ (render_page s).2)
    ∧ (s.page = .admin_panel → s.admin_authenticated = false →
      (render_page s).1.page = .admin_login
      ∧ Effect.warnAdminLoginRequired ∈ (render_page s).2
      ∧ Effect.renderAdminPanel ∈ (render_page s).2) := by
  obtain ⟨pg, auth, admin⟩ := s
  refine ⟨fun hp hf => ?_, fun hp hf => ?_, fun hp hf => ?_⟩ <;>
    (subst hp; subst hf; simp [render_page])

/-- Claim C6 witness: a concrete unauthenticated session on the `main`
page is redirected to `login` with the warning, and the dashboard body
still renders. -/
theorem guard_redirects_body_still_renders_witness :
    (render_page ⟨.main, false, false⟩).1.page = .login
    ∧ Effect.warnLoginRequired ∈ (render_page ⟨.main, false, false⟩).2
    ∧ Effect.renderMainDashboard ∈ (render_page ⟨.main, false, false⟩).2 :=
  (guard_redirects_body_still_renders ⟨.main, false, false⟩).1 rfl rfl

/-- Claim C7: a dataset with zero numeric columns gets the explicit
"no numeric columns" error instead of a heatmap, and a pie-chart
selection whose X column is not of `object` dtype or whose Y column is
not of a numeric dtype gets the explicit type error instead of a chart. -/
theorem heatmap_pie_error_handling (df : DFrame) (x y : String) :
    (numeric_columns df = [] → heatmap_step df = .noNumericError)
    ∧ ((dtypeOf df x ≠ some .objectDt
        ∨ (∀ d, dtypeOf df y = some d → isNumericDtype d = false)) →
       pie_chart_step df x y = .typeError) := by
  constructor
  · intro h
    simp [heatmap_step, h]
  · intro h
    unfold pie_chart_step
    rw [if_neg]
    rintro ⟨hx, hy⟩
    rcases h with h | h
    · exact h hx
    · rcases hy with hy | hy
      · have hnum := h .int64 hy
        simp [isNumericDtype] at hnum
      · have hnum := h .float64 hy
        simp [isNumericDtype] at hnum

/-- Claim C7 witness: a concrete all-text dataset yields the heatmap
error, and a bool-typed X column yields the pie-chart type error. -/
theorem heatmap_pie_error_handling_witness :
    heatmap_step [("name", .objectDt)] = .noNumericError
    ∧ pie_chart_step [("name", .objectDt), ("flag", .boolDt)] "flag" "name"
        = .typeError :=
  ⟨(heatmap_pie_error_handling [("name", .objectDt)] "x" "y").1 (by decide),
   (heatmap_pie_error_handling [("name", .objectDt), ("flag", .boolDt)]
      "flag" "name").2 (Or.inl (by decide))⟩

/-- Claim C8 counterexample: a `.xls` file is not accepted by the upload
path as the claim states, because the uploader widget's allow-list at
line 364 is only `["csv", "xlsx"]` — even though the read step itself
would parse `.xls`. -/
theorem upload_path_xls_counterexample :
    upload_path_accepts ".xls" = false
    ∧ (read_file ".xls").1 = some .excel := by
  decide

/-- Claim C8 (amended): the read step accepts exactly the extensions
`.csv`, `.xls`, `.xlsx` and for any other extension reports an error and
yields no dataset; the uploader widget additionally restricts uploads to
`.csv` and `.xlsx`, so the upload path end-to-end accepts exactly those
two. -/
theorem read_file_accepts_exactly (ext : String) :
    ((read_file ext).1.isSome = true
      ↔ (ext = ".csv" ∨ ext = ".xls" ∨ ext = ".xlsx"))
    ∧ (¬(ext = ".csv" ∨ ext = ".xls" ∨ ext = ".xlsx") →
        (read_file ext).1 = none
        ∧ (read_file ext).2 = [.errorUnsupportedFileType])
    ∧ (upload_path_accepts ext = true ↔ (ext = ".csv" ∨ ext = ".xlsx")) := by
  unfold upload_path_accepts uploader_accepts read_file
  by_cases h1 : ext = ".csv" <;> by_cases h2 : ext = ".xls" <;>
    by_cases h3 : ext = ".xlsx" <;> simp [h1, h2, h3]

/-- Claim C8 witness: a concrete `.pdf` upload is rejected by the read
step with the error and no dataset. -/
theorem read_file_accepts_exactly_witness :
    (read_file ".pdf").1 = none
    ∧ (read_file ".pdf").2 = [.errorUnsupportedFileType] :=
  (read_file_accepts_exactly ".pdf").2.1 (by decide)

/-- Claim C4: a registration request with a malformed email or phone is
rejected — the table is unchanged, the reported result is the matching
format error — and the database-access trace is empty: the format checks
run strictly before the existence query and the insert. -/
theorem register_rejects_before_db (checkOut insOut : DBOutcome)
    (db : List UserRow) (u fn ln e ph pw : String) (salt : Nat)
    (h : is_valid_email e = false ∨ is_valid_phone ph = false) :
    (register_user checkOut insOut db u fn ln e ph pw salt).db = db
    ∧ (register_user checkOut insOut db u fn ln e ph pw salt).trace = []
    ∧ ((register_user checkOut insOut db u fn ln e ph pw salt).result
          = .invalidEmail
       ∨ (register_user checkOut insOut db u fn ln e ph pw salt).result
          = .invalidPhone) := by
  by_cases he : is_valid_email e = false
  · simp [register_user, he]
  · rcases h with h | h
    · exact absurd h he
    · simp only [Bool.not_eq_false] at he
      simp [register_user, he, h]

/-- Claim C4 witness: a concrete request with malformed email `"bad"` is
rejected with an untouched table and an empty database-access trace. -/
theorem register_rejects_before_db_witness :
    (register_user .ok .ok [] "u" "f" "l" "bad" "1234567890" "pw" 0).db = []
    ∧ (register_user .ok .ok [] "u" "f" "l" "bad" "1234567890" "pw" 0).trace
        = []
    ∧ ((register_user .ok .ok [] "u" "f" "l" "bad" "1234567890" "pw" 0).result
          = .invalidEmail
       ∨ (register_user .ok .ok [] "u" "f" "l" "bad" "1234567890" "pw" 0).result
          = .invalidPhone) :=
  register_rejects_before_db .ok .ok [] "u" "f" "l" "bad" "1234567890" "pw" 0
    (Or.inl (by decide))

/-- Claim C9: whenever the existence query's connection fails or the query
raises a SQL error, `check_existing_user` returns `true`, so a
registration request that passed the format checks is refused with the
"already in use" error and no row is inserted. -/
theorem check_existing_fails_closed (out insOut : DBOutcome)
    (db : List UserRow) (u fn ln e ph pw : String) (salt : Nat)
    (h : out ≠ .ok) :
    check_existing_user out db u e ph = true
    ∧ (is_valid_email e = true → is_valid_phone ph = true →
        register_user out insOut db u fn ln e ph pw salt
          = ⟨db, .alreadyInUse, [.existenceQuery]⟩) := by
  cases out with
  | ok => exact absurd rfl h
  | connFail =>
    refine ⟨rfl, fun he hp => ?_⟩
    simp [register_user, he, hp, check_existing_user]
  | sqlError =>
    refine ⟨rfl, fun he hp => ?_⟩
    simp [register_user, he, hp, check_existing_user]

/-- Claim C9 witness: with a failed connection and a well-formed request
on an empty table, registration still reports "already in use" and
inserts nothing. -/
theorem check_existing_fails_closed_witness :
    check_existing_user .connFail [] "u" "a@b.co" "1234567890" = true
    ∧ register_user .connFail .ok [] "u" "f" "l" "a@b.co" "1234567890" "pw" 0
        = ⟨[], .alreadyInUse, [.existenceQuery]⟩ :=
  ⟨(check_existing_fails_closed .connFail .ok [] "u" "f" "l" "a@b.co"
      "1234567890" "pw" 0 (by decide)).1,
   (check_existing_fails_closed .connFail .ok [] "u" "f" "l" "a@b.co"
      "1234567890" "pw" 0 (by decide)).2 (by decide) (by decide)⟩

/-- Claim C1: with a working database, `authenticate_user u p` returns
`true` iff the row fetched for `u` (the first row with that username, as
`fetchone` returns it) exists and bcrypt-checking `p` against its stored
hash succeeds; when no row for `u` exists it returns `false`. -/
theorem authenticate_user_spec (db : List UserRow) (u p : String) :
    (authenticate_user .ok db u p = true
      ↔ ∃ row, db.find? (fun r => r.username == u) = some row
          ∧ verify_password row.password p = true)
    ∧ ((∀ r ∈ db, r.username ≠ u) → authenticate_user .ok db u p = false) := by
  constructor
  · unfold authenticate_user
    cases hf : db.find? (fun r => r.username == u) with
    | none => simp
    | some row => simp
  · intro h
    unfold authenticate_user
    have hf : db.find? (fun r => r.username == u) = none := by
      rw [List.find?_eq_none]
      intro x hx
      simpa using h x hx
    rw [hf]

/-- Claim C1 witness: on a concrete one-row table, the stored user with
the right password authenticates, and an unknown username does not. -/
theorem authenticate_user_spec_witness :
    authenticate_user .ok
      [⟨"alice", "A", "L", "a@b.co", "1234567890", hash_password "pw1" 7⟩]
      "alice" "pw1" = true
    ∧ authenticate_user .ok
      [⟨"alice", "A", "L", "a@b.co", "1234567890", hash_password "pw1" 7⟩]
      "bob" "pw1" = false :=
  ⟨(authenticate_user_spec
      [⟨"alice", "A", "L", "a@b.co", "1234567890", hash_password "pw1" 7⟩]
      "alice" "pw1").1.mpr
      ⟨⟨"alice", "A", "L", "a@b.co", "1234567890", hash_password "pw1" 7⟩,
       by decide, by decide⟩,
   (authenticate_user_spec
      [⟨"alice", "A", "L", "a@b.co", "1234567890", hash_password "pw1" 7⟩]
      "bob" "pw1").2 (by decide)⟩

/-- Claim C2: on a working connection, `update_user` without a password
leaves every stored hash unchanged while setting the other fields of the
matching row (rows of other usernames are untouched); with a non-empty
password it stores exactly the fresh bcrypt hash of the new value — a
hash that verifies the new password and, for a fresh salt, differs from
the old stored hash (and is a hash value, never the plaintext). -/
theorem update_user_password_frame (db : List UserRow)
    (u fn ln e ph : String) (salt : Nat) (i : Nat) (r : UserRow)
    (h : db[i]? = some r) :
    ((update_user .ok db u fn ln e ph none salt).map (fun x => x.password)
       = db.map (fun x => x.password))
    ∧ ((update_user .ok db u fn ln e ph none salt)[i]?
        = some (if r.username == u then
            { r with first_name := fn, last_name := ln, email := e,
                     phone_number := ph }
          else r))
    ∧ (∀ pw : String, pw ≠ "" → r.username = u →
        ∃ r', (update_user .ok db u fn ln e ph (some pw) salt)[i]? = some r'
          ∧ r'.password = hash_password pw salt
          ∧ verify_password r'.password pw = true
          ∧ (r.password.salt ≠ salt → r'.password ≠ r.password)
          ∧ r'.first_name = fn ∧ r'.last_name = ln ∧ r'.email = e
          ∧ r'.phone_number = ph) := by
  refine ⟨?_, ?_, ?_⟩
  · have hmap : update_user .ok db u fn ln e ph none salt
        = db.map (fun a => if a.username == u then
            ⟨a.username, fn, ln, e, ph, a.password⟩ else a) := by
      simp [update_user, pyTruthy]
    rw [hmap, List.map_map]
    apply List.map_congr_left
    intro a _
    by_cases hu : a.username = u <;> simp [hu]
  · simp [update_user, pyTruthy, List.getElem?_map, h]
  · intro pw hpw hu
    have ht : pyTruthy (some pw) = true := by simp [pyTruthy, hpw]
    refine ⟨⟨r.username, fn, ln, e, ph, hash_password pw salt⟩,
            ?_, rfl, ?_, ?_, rfl, rfl, rfl, rfl⟩
    · simp [update_user, ht, List.getElem?_map, h, hu]
    · simp [verify_password, hash_password]
    · intro hs heq
      exact hs (by rw [← heq]; rfl)

/-- Claim C2 witness: on a concrete one-row table, updating without a
password keeps the stored hash and sets the other fields; updating with
password `"new"` and a fresh salt stores a hash of `"new"` that verifies
it and differs from the old hash. -/
theorem update_user_password_frame_witness :
    ((update_user .ok
        [⟨"alice", "A", "L", "a@b.co", "1234567890", ⟨"old", 3⟩⟩]
        "alice" "B" "M" "c@d.co" "2345678901" none 9).map
          (fun x => x.password)
      = ([⟨"alice", "A", "L", "a@b.co", "1234567890", ⟨"old", 3⟩⟩]
          : List UserRow).map (fun x => x.password))
    ∧ (∃ r', (update_user .ok
        [⟨"alice", "A", "L", "a@b.co", "1234567890", ⟨"old", 3⟩⟩]
        "alice" "B" "M" "c@d.co" "2345678901" (some "new") 9)[0]? = some r'
        ∧ r'.password = hash_password "new" 9
        ∧ verify_password r'.password "new" = true
        ∧ ((⟨"old", 3⟩ : BHash).salt ≠ 9 → r'.password ≠ ⟨"old", 3⟩)
        ∧ r'.first_name = "B" ∧ r'.last_name = "M" ∧ r'.email = "c@d.co"
        ∧ r'.phone_number = "2345678901") :=
  ⟨(update_user_password_frame
      [⟨"alice", "A", "L", "a@b.co", "1234567890", ⟨"old", 3⟩⟩]
      "alice" "B" "M" "c@d.co" "2345678901" 9 0
      ⟨"alice", "A", "L", "a@b.co", "1234567890", ⟨"old", 3⟩⟩
      (by decide)).1,
   (update_user_password_frame
      [⟨"alice", "A", "L", "a@b.co", "1234567890", ⟨"old", 3⟩⟩]
      "alice" "B" "M" "c@d.co" "2345678901" 9 0
      ⟨"alice", "A", "L", "a@b.co", "1234567890", ⟨"old", 3⟩⟩
      (by decide)).2.2 "new" (by decide) rfl⟩

/-- Two accounts that share no username, no email and no phone number. -/
def distinctTriple (a b : UserRow) : Prop :=
  a.username ≠ b.username ∧ a.email ≠ b.email
    ∧ a.phone_number ≠ b.phone_number

/-- The registration-time invariant of the spec: the username/email/phone
triple is unique across all accounts. -/
def uniqueAccounts (db : List UserRow) : Prop :=
  db.Pairwise distinctTriple

/-- Claim C3: a registration request whose username, email or phone
number already appears in some row inserts nothing and reports an error
(never success), and registration preserves the uniqueness of the
username/email/phone triple across accounts. -/
theorem register_user_preserves_uniqueness (checkOut insOut : DBOutcome)
    (db : List UserRow) (u fn ln e ph pw : String) (salt : Nat) :
    ((∃ r ∈ db, r.username = u ∨ r.email = e ∨ r.phone_number = ph) →
      (register_user checkOut insOut db u fn ln e ph pw salt).db = db
      ∧ (register_user checkOut insOut db u fn ln e ph pw salt).result
          ≠ .success)
    ∧ (uniqueAccounts db →
        uniqueAccounts
          (register_user checkOut insOut db u fn ln e ph pw salt).db) := by
  by_cases he : is_valid_email e = false
  · constructor
    · intro _
      simp [register_user, he]
    · intro hu
      simpa [register_user, he] using hu
  · simp only [Bool.not_eq_false] at he
    by_cases hp : is_valid_phone ph = false
    · constructor
      · intro _
        simp [register_user, he, hp]
      · intro hu
        simpa [register_user, he, hp] using hu
    · simp only [Bool.not_eq_false] at hp
      by_cases hc : check_existing_user checkOut db u e ph = true
      · constructor
        · intro _
          simp [register_user, he, hp, hc]
        · intro hu
          simpa [register_user, he, hp, hc] using hu
      · simp only [Bool.not_eq_true] at hc
        have hok : checkOut = DBOutcome.ok := by
          cases checkOut with
          | ok => rfl
          | connFail => exact absurd hc (by simp [check_existing_user])
          | sqlError => exact absurd hc (by simp [check_existing_user])
        subst hok
        have hall : ∀ x ∈ db,
            ¬(x.username = u) ∧ ¬(x.email = e) ∧ ¬(x.phone_number = ph) := by
          have h2 := hc
          simp only [check_existing_user, List.any_eq_false,
            Bool.or_eq_true, beq_iff_eq, not_or, and_assoc] at h2
          exact h2
        refine ⟨?_, ?_⟩
        · rintro ⟨r, hr, hm⟩
          rcases hall r hr with ⟨h1, h2, h3⟩
          rcases hm with hx | hx | hx
          · exact absurd hx h1
          · exact absurd hx h2
          · exact absurd hx h3
        · intro hu
          cases insOut with
          | connFail => simpa [register_user, he, hp, hc] using hu
          | sqlError => simpa [register_user, he, hp, hc] using hu
          | ok =>
            have hdb : (register_user .ok .ok db u fn ln e ph pw salt).db
                = db ++ [⟨u, fn, ln, e, ph, hash_password pw salt⟩] := by
              simp [register_user, he, hp, hc]
            rw [hdb]
            unfold uniqueAccounts at hu ⊢
            rw [List.pairwise_append]
            refine ⟨hu, by simp, ?_⟩
            intro a ha b hb
            simp only [List.mem_singleton] at hb
            subst hb
            rcases hall a ha with ⟨h1, h2, h3⟩
            exact ⟨h1, h2, h3⟩

/-- Claim C3 witness: a concrete request reusing the username `"alice"`
of a one-row unique table inserts nothing and does not succeed, and the
table stays unique. -/
theorem register_user_preserves_uniqueness_witness :
    ((register_user .ok .ok
        [⟨"alice", "A", "L", "a@b.co", "1234567890", ⟨"p", 0⟩⟩]
        "alice" "F" "G" "x@y.co" "2345678901" "pw" 1).db
      = [⟨"alice", "A", "L", "a@b.co", "1234567890", ⟨"p", 0⟩⟩]
    ∧ (register_user .ok .ok
        [⟨"alice", "A", "L", "a@b.co", "1234567890", ⟨"p", 0⟩⟩]
        "alice" "F" "G" "x@y.co" "2345678901" "pw" 1).result ≠ .success)
    ∧ uniqueAccounts (register_user .ok .ok
        [⟨"alice", "A", "L", "a@b.co", "1234567890", ⟨"p", 0⟩⟩]
        "alice" "F" "G" "x@y.co" "2345678901" "pw" 1).db :=
  ⟨(register_user_preserves_uniqueness .ok .ok
      [⟨"alice", "A", "L", "a@b.co", "1234567890", ⟨"p", 0⟩⟩]
      "alice" "F" "G" "x@y.co" "2345678901" "pw" 1).1
      ⟨⟨"alice", "A", "L", "a@b.co", "1234567890", ⟨"p", 0⟩⟩,
       by decide, Or.inl rfl⟩,
   (register_user_preserves_uniqueness .ok .ok
      [⟨"alice", "A", "L", "a@b.co", "1234567890", ⟨"p", 0⟩⟩]
      "alice" "F" "G" "x@y.co" "2345678901" "pw" 1).2
      (by unfold uniqueAccounts; simp [distinctTriple])⟩
